import Mathlib

/-!
# The validating dispatcher `load_textures`

Shallow embedding of
`thirdparty/neural_renderer/neural_renderer/cuda/load_textures_cuda.cpp`.

The file defines one C++ function, `load_textures`, which checks each of its four
tensor arguments with the macros `CHECK_CUDA` / `CHECK_CONTIGUOUS` (both expand to
`TORCH_CHECK`, which throws an error carrying a message) and then forwards the four
tensors to the forward-declared device function `load_textures_cuda`.

Modelling choices.

* A tensor handle (`at::Tensor`, defined by the tensor runtime, not by this file) is a
  record.  The dispatcher reads exactly two things from it: `x.device().is_cuda()` and
  `x.is_contiguous()`.  The remaining fields (sizes, strides, element type, values)
  are carried along so that statements about them can be made; no definition here
  reads them.
* A C++ call can throw and can have side effects.  A computation is therefore a
  function from a state to an outcome (`Result`) and a new state.  The state holds the
  part of the world that the device function owns, and a log of the invocations of the
  device function, which the device function itself cannot touch.
* The device function `load_textures_cuda` is only declared in the source.  It is a
  parameter `kernel` of the embedding: any function of four tensors that reads and
  writes the device state and either returns a tensor or throws.
* An error is identified with the message text `TORCH_CHECK` is given.
* A handle always refers to a tensor, as in the data model of the specification; the
  undefined handle of the runtime is outside the model.
-/

namespace LoadTextures

/-! ## Tensor handles -/

/-- Kind of device a tensor lives on.  The dispatcher only distinguishes CUDA from
everything else; the host is named because the scenarios of the specification use it,
and every other backend of the runtime is `other` with its numeric code. -/
inductive DeviceType where
  | CPU
  | CUDA
  | other (code : Nat)
  deriving DecidableEq, Repr

/-- Value returned by `x.device()`: a device kind and a device ordinal. -/
structure Device where
  type : DeviceType
  index : Int
  deriving DecidableEq, Repr

/-- Embedding of `device().is_cuda()`. -/
def Device.is_cuda (d : Device) : Bool :=
  match d.type with
  | DeviceType.CUDA => true
  | _ => false

/-- Tensor handle, `at::Tensor`.  `device` is what `x.device()` returns and
`is_contiguous` is what `x.is_contiguous()` returns (the runtime keeps this layout flag
in the handle).  `sizes`, `strides`, `dtype` and `values` stand for the shape, the
layout, the element type and the contents. -/
structure Tensor where
  device : Device
  is_contiguous : Bool
  sizes : List Nat
  strides : List Nat
  dtype : Nat
  values : List Int
  deriving DecidableEq, Repr

/-! ## Computations that may throw and that may call the device function -/

/-- Outcome of a C++ call: a returned value, or a thrown error with its message. -/
inductive Result (α : Type) where
  | ok (value : α)
  | error (what : String)
  deriving DecidableEq, Repr

/-- One invocation of the device function, with its four actual arguments in the order
of the parameters of the forward declaration `load_textures_cuda(image, faces,
textures, is_update)`. -/
structure KernelCall where
  image : Tensor
  faces : Tensor
  textures : Tensor
  is_update : Tensor
  deriving DecidableEq, Repr

/-- State threaded through a call: whatever the device function owns (`device_state`)
and the log of the invocations of the device function made so far, oldest first. -/
structure State (σ : Type) where
  device_state : σ
  kernel_calls : List KernelCall

/-- Computation: from a state to an outcome and the state afterwards. -/
def Exec (σ : Type) (α : Type) : Type := State σ → Result α × State σ

/-- Sequencing of statements: the second one runs only if the first one did not throw. -/
def Exec.bind {σ α β : Type} (m : Exec σ α) (f : α → Exec σ β) : Exec σ β :=
  fun s =>
    match m s with
    | (Result.ok a, s1) => f a s1
    | (Result.error e, s1) => (Result.error e, s1)

instance (σ : Type) : Monad (Exec σ) where
  pure a := fun s => (Result.ok a, s)
  bind := Exec.bind

/-- Type of the externally implemented device function: four tensors in, a tensor out,
with arbitrary effect on the device state, and possibly throwing. -/
abbrev Kernel (σ : Type) : Type :=
  Tensor → Tensor → Tensor → Tensor → σ → Result Tensor × σ

/-! ## The source file -/

/-- Embedding of a call of the forward-declared
`at::Tensor load_textures_cuda(at::Tensor image, at::Tensor faces, at::Tensor textures,
at::Tensor is_update)`: the invocation is appended to the log, and the outcome and the
new device state are those of the external `kernel`. -/
def load_textures_cuda {σ : Type} (kernel : Kernel σ)
    (image faces textures is_update : Tensor) : Exec σ Tensor :=
  fun s =>
    let r := kernel image faces textures is_update s.device_state
    (r.1, { device_state := r.2,
            kernel_calls := s.kernel_calls ++ [KernelCall.mk image faces textures is_update] })

/-- Embedding of `TORCH_CHECK(cond, msg)`: nothing happens when `cond` holds, otherwise
an error carrying `msg` is thrown. -/
def TORCH_CHECK {σ : Type} (cond : Bool) (msg : String) : Exec σ Unit :=
  fun s => if cond then (Result.ok (), s) else (Result.error msg, s)

/-- Embedding of
`#define CHECK_CUDA(x) TORCH_CHECK(x.device().is_cuda(), #x " must be a CUDA tensor")`.
The macro parameter is used twice, as the expression `x` and as the string `#x`; here
`name` is the stringified spelling of the argument. -/
def CHECK_CUDA {σ : Type} (name : String) (x : Tensor) : Exec σ Unit :=
  TORCH_CHECK x.device.is_cuda (name ++ " must be a CUDA tensor")

/-- Embedding of
`#define CHECK_CONTIGUOUS(x) TORCH_CHECK(x.is_contiguous(), #x " must be contiguous")`. -/
def CHECK_CONTIGUOUS {σ : Type} (name : String) (x : Tensor) : Exec σ Unit :=
  TORCH_CHECK x.is_contiguous (name ++ " must be contiguous")

/-- Embedding of `#define CHECK_INPUT(x) CHECK_CUDA(x); CHECK_CONTIGUOUS(x)`. -/
def CHECK_INPUT {σ : Type} (name : String) (x : Tensor) : Exec σ Unit := do
  CHECK_CUDA name x
  CHECK_CONTIGUOUS name x

/-- Embedding of the function `load_textures` of the source file. -/
def load_textures {σ : Type} (kernel : Kernel σ)
    (image faces textures is_update : Tensor) : Exec σ Tensor := do
  CHECK_INPUT "image" image
  CHECK_INPUT "faces" faces
  CHECK_INPUT "is_update" is_update
  CHECK_INPUT "textures" textures
  load_textures_cuda kernel image faces textures is_update

/-! ## Vocabulary of the specification

The definitions below do not come from the source file.  They spell out the words the
specification uses to talk about it (argument, condition, violation, validity, order of
the checks), so that the statements about `load_textures` can be written down. -/

/-- The four parameters of `load_textures`, in the order of its signature. -/
inductive Arg where
  | image
  | faces
  | textures
  | is_update
  deriving DecidableEq, Repr

/-- Spelling of a parameter in the source. -/
def Arg.name : Arg → String
  | Arg.image => "image"
  | Arg.faces => "faces"
  | Arg.textures => "textures"
  | Arg.is_update => "is_update"

/-- Handle bound to a parameter in a call `load_textures(image, faces, textures,
is_update)`. -/
def Arg.select (a : Arg) (image faces textures is_update : Tensor) : Tensor :=
  match a with
  | Arg.image => image
  | Arg.faces => faces
  | Arg.textures => textures
  | Arg.is_update => is_update

/-- The two conditions the specification requires of every handle. -/
inductive Condition where
  | device_residency
  | contiguity
  deriving DecidableEq, Repr

/-- Whether a handle meets a condition: GPU-resident, respectively contiguous. -/
def Condition.holds (c : Condition) (x : Tensor) : Bool :=
  match c with
  | Condition.device_residency => x.device.is_cuda
  | Condition.contiguity => x.is_contiguous

/-- Wording of a condition in a violation message, after the name of the argument. -/
def Condition.text : Condition → String
  | Condition.device_residency => " must be a CUDA tensor"
  | Condition.contiguity => " must be contiguous"

/-- The error kind of the specification: which argument failed which condition. -/
structure PreconditionViolation where
  argument : Arg
  condition : Condition
  deriving DecidableEq, Repr

/-- Message text by which a violation identifies its argument and its condition. -/
def PreconditionViolation.message (v : PreconditionViolation) : String :=
  v.argument.name ++ v.condition.text

/-- A handle is valid when it is GPU-resident and contiguous. -/
def Tensor.valid (x : Tensor) : Bool :=
  x.device.is_cuda && x.is_contiguous

/-- The fixed order in which the specification says the arguments are checked. -/
def check_order : List Arg :=
  [Arg.image, Arg.faces, Arg.is_update, Arg.textures]

/-- The sequence of the eight checks: per argument in `check_order`, device residency
before contiguity. -/
def check_sequence : List PreconditionViolation :=
  [ PreconditionViolation.mk Arg.image Condition.device_residency,
    PreconditionViolation.mk Arg.image Condition.contiguity,
    PreconditionViolation.mk Arg.faces Condition.device_residency,
    PreconditionViolation.mk Arg.faces Condition.contiguity,
    PreconditionViolation.mk Arg.is_update Condition.device_residency,
    PreconditionViolation.mk Arg.is_update Condition.contiguity,
    PreconditionViolation.mk Arg.textures Condition.device_residency,
    PreconditionViolation.mk Arg.textures Condition.contiguity ]

/-- The first argument in `check_order` whose handle is not valid, if there is one. -/
def first_invalid (image faces textures is_update : Tensor) : Option Arg :=
  check_order.find? (fun a => !(a.select image faces textures is_update).valid)

/-- The first check in `check_sequence` that fails, if there is one. -/
def first_failing_check (image faces textures is_update : Tensor) :
    Option PreconditionViolation :=
  check_sequence.find?
    (fun v => !(v.condition.holds (v.argument.select image faces textures is_update)))

/-- Place of an argument in `check_order`, counted from 0. -/
def Arg.position (a : Arg) : Nat :=
  check_order.indexOf a

/-! ## Concrete handles and a concrete device function, for the scenarios -/

/-- An image handle on GPU 0, contiguous: 2 x 3, row-major. -/
def image_ok : Tensor :=
  { device := Device.mk DeviceType.CUDA 0, is_contiguous := true,
    sizes := [2, 3], strides := [3, 1], dtype := 6, values := [1, 2, 3, 4, 5, 6] }

/-- A faces handle on GPU 0, contiguous: 4 indices. -/
def faces_ok : Tensor :=
  { device := Device.mk DeviceType.CUDA 0, is_contiguous := true,
    sizes := [4], strides := [1], dtype := 3, values := [0, 2, 1, 3] }

/-- A textures handle on GPU 0, contiguous: 3 x 2, row-major. -/
def textures_ok : Tensor :=
  { device := Device.mk DeviceType.CUDA 0, is_contiguous := true,
    sizes := [3, 2], strides := [2, 1], dtype := 6, values := [0, 0, 0, 0, 0, 0] }

/-- A flag handle on GPU 0, contiguous: 2 flags. -/
def is_update_ok : Tensor :=
  { device := Device.mk DeviceType.CUDA 0, is_contiguous := true,
    sizes := [2], strides := [1], dtype := 2, values := [1, 0] }

/-- The image handle, but on the host. -/
def image_on_cpu : Tensor :=
  { image_ok with device := Device.mk DeviceType.CPU 0 }

/-- The image handle viewed transposed: 3 x 2 with strides (1, 3), not contiguous. -/
def image_transposed : Tensor :=
  { image_ok with is_contiguous := false, sizes := [3, 2], strides := [1, 3] }

/-- The faces handle, but on the host. -/
def faces_on_cpu : Tensor :=
  { faces_ok with device := Device.mk DeviceType.CPU 0 }

/-- The textures handle viewed transposed: 2 x 3 with strides (1, 2), not contiguous. -/
def textures_transposed : Tensor :=
  { textures_ok with is_contiguous := false, sizes := [2, 3], strides := [1, 2] }

/-- The flag handle on the host and strided: neither GPU-resident nor contiguous. -/
def is_update_on_cpu_strided : Tensor :=
  { is_update_ok with device := Device.mk DeviceType.CPU 0, is_contiguous := false,
                      strides := [2] }

/-- A device function for the scenarios: it counts its launches in the device state and
returns a tensor assembled from parts of all four arguments, so that exchanging two
arguments changes the result. -/
def sample_kernel : Kernel Nat :=
  fun image faces textures is_update n =>
    (Result.ok { device := textures.device, is_contiguous := true,
                 sizes := image.sizes, strides := faces.strides,
                 dtype := is_update.dtype, values := textures.values },
     n + 1)

/-- A device function that always throws. -/
def failing_kernel : Kernel Nat :=
  fun _ _ _ _ n => (Result.error "CUDA error: out of memory", n)

/-- Initial state for the scenarios: no launch so far. -/
def initial_state : State Nat :=
  { device_state := 0, kernel_calls := [] }

/-- An image handle on GPU 1, contiguous, with another shape, element type and
contents. -/
def image_other : Tensor :=
  { device := Device.mk DeviceType.CUDA 1, is_contiguous := true,
    sizes := [5], strides := [1], dtype := 0, values := [9, 8, 7, 6, 5] }

/-- A faces handle on another backend (neither host nor CUDA), contiguous. -/
def faces_other : Tensor :=
  { device := Device.mk (DeviceType.other 6) 0, is_contiguous := true,
    sizes := [1, 1], strides := [1, 1], dtype := 4, values := [42] }

/-- A textures handle on GPU 3, strided, not contiguous. -/
def textures_other : Tensor :=
  { device := Device.mk DeviceType.CUDA 3, is_contiguous := false,
    sizes := [2], strides := [4], dtype := 11, values := [1, 0, 0, 0, 1] }

/-- A flag handle on GPU 1, contiguous, empty. -/
def is_update_other : Tensor :=
  { device := Device.mk DeviceType.CUDA 1, is_contiguous := true,
    sizes := [0], strides := [1], dtype := 11, values := [] }

/-- A state later in a run: five launches so far, one of them logged here. -/
def later_state : State Nat :=
  { device_state := 5,
    kernel_calls := [KernelCall.mk image_ok faces_ok textures_ok is_update_ok] }

/-! ## The dispatcher as a chain of guards -/

/-- Running `load_textures` is running eight guards in the order of the source and
then the device function: the do-block of the embedding, with the sequencing unfolded. -/
theorem load_textures_run {σ : Type} (kernel : Kernel σ)
    (image faces textures is_update : Tensor) (s : State σ) :
    load_textures kernel image faces textures is_update s =
      if image.device.is_cuda = false then
        (Result.error "image must be a CUDA tensor", s)
      else if image.is_contiguous = false then
        (Result.error "image must be contiguous", s)
      else if faces.device.is_cuda = false then
        (Result.error "faces must be a CUDA tensor", s)
      else if faces.is_contiguous = false then
        (Result.error "faces must be contiguous", s)
      else if is_update.device.is_cuda = false then
        (Result.error "is_update must be a CUDA tensor", s)
      else if is_update.is_contiguous = false then
        (Result.error "is_update must be contiguous", s)
      else if textures.device.is_cuda = false then
        (Result.error "textures must be a CUDA tensor", s)
      else if textures.is_contiguous = false then
        (Result.error "textures must be contiguous", s)
      else load_textures_cuda kernel image faces textures is_update s := by
  simp only [load_textures, CHECK_INPUT, CHECK_CUDA, CHECK_CONTIGUOUS, TORCH_CHECK,
    bind, Exec.bind]
  cases image.device.is_cuda <;> cases image.is_contiguous <;>
  cases faces.device.is_cuda <;> cases faces.is_contiguous <;>
  cases is_update.device.is_cuda <;> cases is_update.is_contiguous <;>
  cases textures.device.is_cuda <;> cases textures.is_contiguous <;> rfl

/-! ## The guards and the vocabulary of the specification -/

/-- The first failing check, computed guard by guard. -/
theorem first_failing_check_cases (image faces textures is_update : Tensor) :
    first_failing_check image faces textures is_update =
      if image.device.is_cuda = false then
        some (PreconditionViolation.mk Arg.image Condition.device_residency)
      else if image.is_contiguous = false then
        some (PreconditionViolation.mk Arg.image Condition.contiguity)
      else if faces.device.is_cuda = false then
        some (PreconditionViolation.mk Arg.faces Condition.device_residency)
      else if faces.is_contiguous = false then
        some (PreconditionViolation.mk Arg.faces Condition.contiguity)
      else if is_update.device.is_cuda = false then
        some (PreconditionViolation.mk Arg.is_update Condition.device_residency)
      else if is_update.is_contiguous = false then
        some (PreconditionViolation.mk Arg.is_update Condition.contiguity)
      else if textures.device.is_cuda = false then
        some (PreconditionViolation.mk Arg.textures Condition.device_residency)
      else if textures.is_contiguous = false then
        some (PreconditionViolation.mk Arg.textures Condition.contiguity)
      else none := by
  simp only [first_failing_check, check_sequence, List.find?, Condition.holds, Arg.select]
  cases image.device.is_cuda <;> cases image.is_contiguous <;>
  cases faces.device.is_cuda <;> cases faces.is_contiguous <;>
  cases is_update.device.is_cuda <;> cases is_update.is_contiguous <;>
  cases textures.device.is_cuda <;> cases textures.is_contiguous <;> rfl

/-- The first invalid argument, computed argument by argument. -/
theorem first_invalid_cases (image faces textures is_update : Tensor) :
    first_invalid image faces textures is_update =
      if image.valid = false then some Arg.image
      else if faces.valid = false then some Arg.faces
      else if is_update.valid = false then some Arg.is_update
      else if textures.valid = false then some Arg.textures
      else none := by
  simp only [first_invalid, check_order, List.find?, Arg.select]
  cases image.valid <;> cases faces.valid <;> cases is_update.valid <;>
  cases textures.valid <;> rfl

/-- The dispatcher throws the message of the first failing check, leaving the state as
it was, and otherwise calls the device function. -/
theorem load_textures_by_first_failing_check {σ : Type} (kernel : Kernel σ)
    (image faces textures is_update : Tensor) (s : State σ) :
    load_textures kernel image faces textures is_update s =
      match first_failing_check image faces textures is_update with
      | some v => (Result.error v.message, s)
      | none => load_textures_cuda kernel image faces textures is_update s := by
  rw [load_textures_run, first_failing_check_cases]
  cases image.device.is_cuda <;> cases image.is_contiguous <;>
  cases faces.device.is_cuda <;> cases faces.is_contiguous <;>
  cases is_update.device.is_cuda <;> cases is_update.is_contiguous <;>
  cases textures.device.is_cuda <;> cases textures.is_contiguous <;> rfl

/-- The first invalid argument is the argument of the first failing check. -/
theorem first_invalid_eq_argument (image faces textures is_update : Tensor) :
    first_invalid image faces textures is_update =
      (first_failing_check image faces textures is_update).map
        PreconditionViolation.argument := by
  rw [first_invalid_cases, first_failing_check_cases]
  unfold Tensor.valid
  cases image.device.is_cuda <;> cases image.is_contiguous <;>
  cases faces.device.is_cuda <;> cases faces.is_contiguous <;>
  cases is_update.device.is_cuda <;> cases is_update.is_contiguous <;>
  cases textures.device.is_cuda <;> cases textures.is_contiguous <;> rfl

/-- No check fails exactly when all four handles are valid. -/
theorem first_failing_check_eq_none_iff (image faces textures is_update : Tensor) :
    first_failing_check image faces textures is_update = none ↔
      (image.valid = true ∧ faces.valid = true ∧ textures.valid = true ∧
        is_update.valid = true) := by
  rw [first_failing_check_cases]
  simp only [Tensor.valid]
  cases image.device.is_cuda <;> cases image.is_contiguous <;>
  cases faces.device.is_cuda <;> cases faces.is_contiguous <;>
  cases is_update.device.is_cuda <;> cases is_update.is_contiguous <;>
  cases textures.device.is_cuda <;> cases textures.is_contiguous <;> decide

/-- The first invalid argument is invalid, and every argument checked before it is
valid. -/
theorem first_invalid_is_first (image faces textures is_update : Tensor) (a : Arg)
    (h : first_invalid image faces textures is_update = some a) :
    (a.select image faces textures is_update).valid = false ∧
      ∀ b : Arg, b.position < a.position →
        (b.select image faces textures is_update).valid = true := by
  rw [first_invalid_cases] at h
  cases hi : image.valid <;> cases hf : faces.valid <;> cases hu : is_update.valid <;>
  cases ht : textures.valid <;> simp [hi, hf, hu, ht] at h <;> subst h <;>
  refine ⟨by simp [Arg.select, hi, hf, hu, ht], ?_⟩ <;>
  intro b hb <;> cases b <;>
  first
    | exact absurd hb (by decide)
    | simp [Arg.select, hi, hf, hu, ht]

/-- The failing check is the first one: its condition fails on its argument. -/
theorem first_failing_check_fails (image faces textures is_update : Tensor)
    (v : PreconditionViolation)
    (h : first_failing_check image faces textures is_update = some v) :
    v.condition.holds (v.argument.select image faces textures is_update) = false := by
  have := List.find?_some h
  simpa using this

/-- Two violations with the same message are the same violation. -/
theorem message_injective (v w : PreconditionViolation) (h : v.message = w.message) :
    v = w := by
  obtain ⟨a, c⟩ := v
  obtain ⟨b, d⟩ := w
  cases a <;> cases c <;> cases b <;> cases d <;>
  first
    | rfl
    | exact absurd h (by decide)

/-! ## The valid path -/

/-- C1: when all four handles are GPU-resident and contiguous, `load_textures` raises
nothing of its own and invokes the device function exactly once, on
`(image, faces, textures, is_update)` in this order and unchanged: the log of
invocations grows by exactly that one call, and the outcome and the device state after
the call are exactly those the device function produced; in particular a tensor the
device function returns is the tensor `load_textures` returns. -/
theorem load_textures_valid_forwards {σ : Type} (kernel : Kernel σ)
    (image faces textures is_update : Tensor) (s : State σ)
    (h_image : image.valid = true) (h_faces : faces.valid = true)
    (h_textures : textures.valid = true) (h_is_update : is_update.valid = true) :
    load_textures kernel image faces textures is_update s =
        ((kernel image faces textures is_update s.device_state).1,
         { device_state := (kernel image faces textures is_update s.device_state).2,
           kernel_calls :=
             s.kernel_calls ++ [KernelCall.mk image faces textures is_update] }) ∧
      (load_textures kernel image faces textures is_update s).2.kernel_calls.length =
        s.kernel_calls.length + 1 ∧
      (∀ out : Tensor,
        (kernel image faces textures is_update s.device_state).1 = Result.ok out →
        (load_textures kernel image faces textures is_update s).1 = Result.ok out) := by
  simp only [Tensor.valid, Bool.and_eq_true] at h_image h_faces h_textures h_is_update
  have h : load_textures kernel image faces textures is_update s =
      load_textures_cuda kernel image faces textures is_update s := by
    rw [load_textures_run]
    simp [h_image.1, h_image.2, h_faces.1, h_faces.2, h_textures.1, h_textures.2,
      h_is_update.1, h_is_update.2]
  refine ⟨?_, ?_, ?_⟩
  · rw [h]; rfl
  · rw [h]; simp [load_textures_cuda]
  · intro out hout
    rw [h]; simpa [load_textures_cuda] using hout

/-- Scenario for C1: four valid handles and the sample device function, starting from
the initial state.  The one logged call has the handles in signature order, the device
state shows one launch, and the result is what the device function assembles. -/
theorem load_textures_valid_forwards_witness :
    (image_ok.valid = true ∧ faces_ok.valid = true ∧ textures_ok.valid = true ∧
      is_update_ok.valid = true) ∧
    (load_textures sample_kernel image_ok faces_ok textures_ok is_update_ok initial_state =
        ((sample_kernel image_ok faces_ok textures_ok is_update_ok 0).1,
         { device_state := 1,
           kernel_calls := [KernelCall.mk image_ok faces_ok textures_ok is_update_ok] }) ∧
      (load_textures sample_kernel image_ok faces_ok textures_ok is_update_ok
          initial_state).2.kernel_calls.length = 1 ∧
      (load_textures sample_kernel image_ok faces_ok textures_ok is_update_ok
          initial_state).1 =
        Result.ok { device := Device.mk DeviceType.CUDA 0, is_contiguous := true,
                    sizes := [2, 3], strides := [1], dtype := 2,
                    values := [0, 0, 0, 0, 0, 0] }) :=
  ⟨⟨by decide, by decide, by decide, by decide⟩,
   (load_textures_valid_forwards sample_kernel image_ok faces_ok textures_ok is_update_ok
      initial_state (by decide) (by decide) (by decide) (by decide)).1,
   (load_textures_valid_forwards sample_kernel image_ok faces_ok textures_ok is_update_ok
      initial_state (by decide) (by decide) (by decide) (by decide)).2.1,
   (load_textures_valid_forwards sample_kernel image_ok faces_ok textures_ok is_update_ok
      initial_state (by decide) (by decide) (by decide) (by decide)).2.2 _ rfl⟩

/-! ## A single invalid argument -/

/-- What the validity of one argument says about the two flags the guards read. -/
theorem select_flags_of_valid (image faces textures is_update : Tensor) (b : Arg)
    (h : (b.select image faces textures is_update).valid = true) :
    (b.select image faces textures is_update).device.is_cuda = true ∧
      (b.select image faces textures is_update).is_contiguous = true := by
  simpa [Tensor.valid] using h

/-- C2: for each of the four arguments, if its handle is not GPU-resident while the
other three handles are GPU-resident and contiguous, `load_textures` throws the
violation that names this argument and the device-residency condition, and the device
function is not invoked: the state, log of invocations included, is unchanged. -/
theorem load_textures_rejects_non_gpu {σ : Type} (kernel : Kernel σ)
    (image faces textures is_update : Tensor) (s : State σ) (a : Arg)
    (h_bad : (a.select image faces textures is_update).device.is_cuda = false)
    (h_others : ∀ b : Arg, b ≠ a → (b.select image faces textures is_update).valid = true) :
    load_textures kernel image faces textures is_update s =
        (Result.error (PreconditionViolation.mk a Condition.device_residency).message, s) ∧
      (load_textures kernel image faces textures is_update s).2.kernel_calls =
        s.kernel_calls := by
  have h : load_textures kernel image faces textures is_update s =
      (Result.error (PreconditionViolation.mk a Condition.device_residency).message, s) := by
    rw [load_textures_run]
    cases a
    · simp only [Arg.select] at h_bad
      simp [h_bad]; rfl
    · have h1 := select_flags_of_valid image faces textures is_update Arg.image
        (h_others Arg.image (by decide))
      simp only [Arg.select] at h_bad h1
      simp [h_bad, h1.1, h1.2]; rfl
    · have h1 := select_flags_of_valid image faces textures is_update Arg.image
        (h_others Arg.image (by decide))
      have h2 := select_flags_of_valid image faces textures is_update Arg.faces
        (h_others Arg.faces (by decide))
      have h3 := select_flags_of_valid image faces textures is_update Arg.is_update
        (h_others Arg.is_update (by decide))
      simp only [Arg.select] at h_bad h1 h2 h3
      simp [h_bad, h1.1, h1.2, h2.1, h2.2, h3.1, h3.2]; rfl
    · have h1 := select_flags_of_valid image faces textures is_update Arg.image
        (h_others Arg.image (by decide))
      have h2 := select_flags_of_valid image faces textures is_update Arg.faces
        (h_others Arg.faces (by decide))
      simp only [Arg.select] at h_bad h1 h2
      simp [h_bad, h1.1, h1.2, h2.1, h2.2]; rfl
  exact ⟨h, by rw [h]⟩

/-- Scenario for C2: image on the host, faces, textures and is_update on the GPU and
contiguous.  The violation reports `image`, and nothing is launched. -/
theorem load_textures_rejects_non_gpu_witness :
    (image_on_cpu.device.is_cuda = false ∧
      (∀ b : Arg, b ≠ Arg.image →
        (b.select image_on_cpu faces_ok textures_ok is_update_ok).valid = true)) ∧
    (load_textures sample_kernel image_on_cpu faces_ok textures_ok is_update_ok
        initial_state =
        (Result.error "image must be a CUDA tensor", initial_state) ∧
      (load_textures sample_kernel image_on_cpu faces_ok textures_ok is_update_ok
        initial_state).2.kernel_calls = []) :=
  ⟨⟨by decide, by intro b hb; cases b <;> first | exact absurd rfl hb | decide⟩,
   load_textures_rejects_non_gpu sample_kernel image_on_cpu faces_ok textures_ok
     is_update_ok initial_state Arg.image (by decide)
     (by intro b hb; cases b <;> first | exact absurd rfl hb | decide)⟩

/-- C3: for each of the four arguments, if its handle is GPU-resident but not
contiguous while the other three handles are GPU-resident and contiguous,
`load_textures` throws the violation that names this argument and the contiguity
condition, and the device function is not invoked: the state, log of invocations
included, is unchanged. -/
theorem load_textures_rejects_non_contiguous {σ : Type} (kernel : Kernel σ)
    (image faces textures is_update : Tensor) (s : State σ) (a : Arg)
    (h_gpu : (a.select image faces textures is_update).device.is_cuda = true)
    (h_bad : (a.select image faces textures is_update).is_contiguous = false)
    (h_others : ∀ b : Arg, b ≠ a → (b.select image faces textures is_update).valid = true) :
    load_textures kernel image faces textures is_update s =
        (Result.error (PreconditionViolation.mk a Condition.contiguity).message, s) ∧
      (load_textures kernel image faces textures is_update s).2.kernel_calls =
        s.kernel_calls := by
  have h : load_textures kernel image faces textures is_update s =
      (Result.error (PreconditionViolation.mk a Condition.contiguity).message, s) := by
    rw [load_textures_run]
    cases a
    · simp only [Arg.select] at h_bad h_gpu
      simp [h_bad, h_gpu]; rfl
    · have h1 := select_flags_of_valid image faces textures is_update Arg.image
        (h_others Arg.image (by decide))
      simp only [Arg.select] at h_bad h_gpu h1
      simp [h_bad, h_gpu, h1.1, h1.2]; rfl
    · have h1 := select_flags_of_valid image faces textures is_update Arg.image
        (h_others Arg.image (by decide))
      have h2 := select_flags_of_valid image faces textures is_update Arg.faces
        (h_others Arg.faces (by decide))
      have h3 := select_flags_of_valid image faces textures is_update Arg.is_update
        (h_others Arg.is_update (by decide))
      simp only [Arg.select] at h_bad h_gpu h1 h2 h3
      simp [h_bad, h_gpu, h1.1, h1.2, h2.1, h2.2, h3.1, h3.2]; rfl
    · have h1 := select_flags_of_valid image faces textures is_update Arg.image
        (h_others Arg.image (by decide))
      have h2 := select_flags_of_valid image faces textures is_update Arg.faces
        (h_others Arg.faces (by decide))
      simp only [Arg.select] at h_bad h_gpu h1 h2
      simp [h_bad, h_gpu, h1.1, h1.2, h2.1, h2.2]; rfl
  exact ⟨h, by rw [h]⟩

/-- Scenario for C3: all four handles on the GPU, textures viewed transposed.  The
violation reports `textures` with the contiguity condition, and nothing is launched. -/
theorem load_textures_rejects_non_contiguous_witness :
    (textures_transposed.device.is_cuda = true ∧
      textures_transposed.is_contiguous = false ∧
      (∀ b : Arg, b ≠ Arg.textures →
        (b.select image_ok faces_ok textures_transposed is_update_ok).valid = true)) ∧
    (load_textures sample_kernel image_ok faces_ok textures_transposed is_update_ok
        initial_state =
        (Result.error "textures must be contiguous", initial_state) ∧
      (load_textures sample_kernel image_ok faces_ok textures_transposed is_update_ok
        initial_state).2.kernel_calls = []) :=
  ⟨⟨by decide, by decide, by intro b hb; cases b <;> first | exact absurd rfl hb | decide⟩,
   load_textures_rejects_non_contiguous sample_kernel image_ok faces_ok textures_transposed
     is_update_ok initial_state Arg.textures (by decide) (by decide)
     (by intro b hb; cases b <;> first | exact absurd rfl hb | decide)⟩

/-! ## Several invalid arguments, and the kernel gate -/

/-- C4: when at least one of the four handles is invalid (not GPU-resident, or not
contiguous), the violation `load_textures` throws names the first invalid argument in
the order image, faces, is_update, textures, not the first in signature order: that
argument is `first_invalid`, it is invalid, every argument at an earlier position of
`check_order` is valid, and the message thrown is not a message about any other
argument. -/
theorem load_textures_reports_first_invalid {σ : Type} (kernel : Kernel σ)
    (image faces textures is_update : Tensor) (s : State σ)
    (h_invalid : ∃ a : Arg, (a.select image faces textures is_update).valid = false) :
    ∃ (a : Arg) (c : Condition),
      first_invalid image faces textures is_update = some a ∧
      (a.select image faces textures is_update).valid = false ∧
      (∀ b : Arg, b.position < a.position →
        (b.select image faces textures is_update).valid = true) ∧
      load_textures kernel image faces textures is_update s =
        (Result.error (PreconditionViolation.mk a c).message, s) ∧
      (∀ (b : Arg) (d : Condition), b ≠ a →
        (load_textures kernel image faces textures is_update s).1 ≠
          Result.error (PreconditionViolation.mk b d).message) := by
  cases hff : first_failing_check image faces textures is_update with
  | none =>
    exfalso
    have hv := (first_failing_check_eq_none_iff image faces textures is_update).1 hff
    obtain ⟨a, ha⟩ := h_invalid
    cases a <;> simp [Arg.select, hv.1, hv.2.1, hv.2.2.1, hv.2.2.2] at ha
  | some v =>
    have hfi : first_invalid image faces textures is_update = some v.argument := by
      rw [first_invalid_eq_argument, hff]; rfl
    have hrun : load_textures kernel image faces textures is_update s =
        (Result.error v.message, s) := by
      rw [load_textures_by_first_failing_check, hff]
    obtain ⟨hbad, hfirst⟩ := first_invalid_is_first image faces textures is_update _ hfi
    refine ⟨v.argument, v.condition, hfi, hbad, hfirst, hrun, ?_⟩
    intro b d hb heq
    rw [hrun] at heq
    have hvw := message_injective _ _ (Result.error.inj heq)
    exact hb (by rw [hvw])

/-- Scenario for C4: textures (transposed) and is_update (on the host, strided) are
both invalid, image and faces are valid.  The violation names `is_update`, which comes
after `textures` in the signature but before it in the order of the checks. -/
theorem load_textures_reports_first_invalid_witness :
    (∃ a : Arg,
      (a.select image_ok faces_ok textures_transposed is_update_on_cpu_strided).valid
        = false) ∧
    (∃ (a : Arg) (c : Condition),
      first_invalid image_ok faces_ok textures_transposed is_update_on_cpu_strided
        = some a ∧
      (a.select image_ok faces_ok textures_transposed is_update_on_cpu_strided).valid
        = false ∧
      (∀ b : Arg, b.position < a.position →
        (b.select image_ok faces_ok textures_transposed is_update_on_cpu_strided).valid
          = true) ∧
      load_textures sample_kernel image_ok faces_ok textures_transposed
          is_update_on_cpu_strided initial_state =
        (Result.error (PreconditionViolation.mk a c).message, initial_state) ∧
      (∀ (b : Arg) (d : Condition), b ≠ a →
        (load_textures sample_kernel image_ok faces_ok textures_transposed
          is_update_on_cpu_strided initial_state).1 ≠
          Result.error (PreconditionViolation.mk b d).message)) ∧
    textures_transposed.valid = false ∧ is_update_on_cpu_strided.valid = false ∧
    first_invalid image_ok faces_ok textures_transposed is_update_on_cpu_strided
      = some Arg.is_update ∧
    (load_textures sample_kernel image_ok faces_ok textures_transposed
        is_update_on_cpu_strided initial_state).1 =
      Result.error "is_update must be a CUDA tensor" :=
  ⟨⟨Arg.textures, by decide⟩,
   load_textures_reports_first_invalid sample_kernel image_ok faces_ok textures_transposed
     is_update_on_cpu_strided initial_state ⟨Arg.textures, by decide⟩,
   by decide, by decide, by decide, by decide⟩

/-- C5: `load_textures` invokes the device function if and only if all four handles are
GPU-resident and contiguous.  When they are, the log of invocations grows by the one
call; when any handle fails either condition, the call ends in a violation and the
whole state, log and device state, is what it was before the call, so nothing was done
before the violation. -/
theorem load_textures_invokes_kernel_iff_valid {σ : Type} (kernel : Kernel σ)
    (image faces textures is_update : Tensor) (s : State σ) :
    ((load_textures kernel image faces textures is_update s).2.kernel_calls =
        s.kernel_calls ++ [KernelCall.mk image faces textures is_update] ↔
      (image.valid = true ∧ faces.valid = true ∧ textures.valid = true ∧
        is_update.valid = true)) ∧
    ((load_textures kernel image faces textures is_update s).2.kernel_calls =
        s.kernel_calls ↔
      ¬ (image.valid = true ∧ faces.valid = true ∧ textures.valid = true ∧
        is_update.valid = true)) ∧
    (¬ (image.valid = true ∧ faces.valid = true ∧ textures.valid = true ∧
        is_update.valid = true) →
      ∃ v : PreconditionViolation,
        load_textures kernel image faces textures is_update s =
          (Result.error v.message, s)) := by
  cases hff : first_failing_check image faces textures is_update with
  | none =>
    have hv := (first_failing_check_eq_none_iff image faces textures is_update).1 hff
    have hrun : load_textures kernel image faces textures is_update s =
        load_textures_cuda kernel image faces textures is_update s := by
      rw [load_textures_by_first_failing_check, hff]
    refine ⟨⟨fun _ => hv, fun _ => by rw [hrun]; rfl⟩, ⟨fun h => ?_, fun h => absurd hv h⟩,
      fun h => absurd hv h⟩
    rw [hrun] at h
    simp [load_textures_cuda] at h
  | some v =>
    have hnv : ¬ (image.valid = true ∧ faces.valid = true ∧ textures.valid = true ∧
        is_update.valid = true) := by
      intro hv
      rw [(first_failing_check_eq_none_iff image faces textures is_update).2 hv] at hff
      exact Option.noConfusion hff
    have hrun : load_textures kernel image faces textures is_update s =
        (Result.error v.message, s) := by
      rw [load_textures_by_first_failing_check, hff]
    refine ⟨⟨fun h => ?_, fun h => absurd h hnv⟩, ⟨fun _ => hnv, fun _ => by rw [hrun]⟩,
      fun _ => ⟨v, hrun⟩⟩
    rw [hrun] at h
    simp at h

/-- Scenario for C5: with the faces handle on the host nothing is launched and the
state is untouched; with four valid handles there is exactly one launch. -/
theorem load_textures_invokes_kernel_iff_valid_witness :
    load_textures sample_kernel image_ok faces_on_cpu textures_ok is_update_ok
        initial_state =
      (Result.error "faces must be a CUDA tensor", initial_state) ∧
    (load_textures sample_kernel image_ok faces_ok textures_ok is_update_ok
        initial_state).2.kernel_calls =
      [KernelCall.mk image_ok faces_ok textures_ok is_update_ok] :=
  ⟨rfl,
   (load_textures_invokes_kernel_iff_valid sample_kernel image_ok faces_ok textures_ok
      is_update_ok initial_state).1.2 (by decide)⟩

/-! ## What the outcome depends on, and the order of the eight checks -/

/-- C6: the outcome of the validation depends only on the GPU-residency and the
contiguity of the four handles.  For two calls whose handles agree on those eight
facts, whatever their shapes, element types and contents (and whatever the device
function and the state), either both throw the same violation, each leaving its state
untouched, or both reach the invocation of the device function. -/
theorem load_textures_depends_only_on_flags {σ τ : Type}
    (kernel1 : Kernel σ) (kernel2 : Kernel τ)
    (image1 faces1 textures1 is_update1 image2 faces2 textures2 is_update2 : Tensor)
    (s1 : State σ) (s2 : State τ)
    (h_image_gpu : image1.device.is_cuda = image2.device.is_cuda)
    (h_image_layout : image1.is_contiguous = image2.is_contiguous)
    (h_faces_gpu : faces1.device.is_cuda = faces2.device.is_cuda)
    (h_faces_layout : faces1.is_contiguous = faces2.is_contiguous)
    (h_textures_gpu : textures1.device.is_cuda = textures2.device.is_cuda)
    (h_textures_layout : textures1.is_contiguous = textures2.is_contiguous)
    (h_is_update_gpu : is_update1.device.is_cuda = is_update2.device.is_cuda)
    (h_is_update_layout : is_update1.is_contiguous = is_update2.is_contiguous) :
    (∃ v : PreconditionViolation,
      load_textures kernel1 image1 faces1 textures1 is_update1 s1 =
        (Result.error v.message, s1) ∧
      load_textures kernel2 image2 faces2 textures2 is_update2 s2 =
        (Result.error v.message, s2)) ∨
    (load_textures kernel1 image1 faces1 textures1 is_update1 s1 =
        load_textures_cuda kernel1 image1 faces1 textures1 is_update1 s1 ∧
      load_textures kernel2 image2 faces2 textures2 is_update2 s2 =
        load_textures_cuda kernel2 image2 faces2 textures2 is_update2 s2) := by
  have hsame : first_failing_check image1 faces1 textures1 is_update1 =
      first_failing_check image2 faces2 textures2 is_update2 := by
    rw [first_failing_check_cases, first_failing_check_cases, h_image_gpu, h_image_layout,
      h_faces_gpu, h_faces_layout, h_textures_gpu, h_textures_layout, h_is_update_gpu,
      h_is_update_layout]
  cases hff : first_failing_check image1 faces1 textures1 is_update1 with
  | none =>
    right
    constructor
    · rw [load_textures_by_first_failing_check, hff]
    · rw [load_textures_by_first_failing_check, ← hsame, hff]
  | some v =>
    left
    refine ⟨v, ?_, ?_⟩
    · rw [load_textures_by_first_failing_check, hff]
    · rw [load_textures_by_first_failing_check, ← hsame, hff]

/-- Scenario for C6: two calls that agree on the eight facts (faces not on a GPU,
textures not contiguous, everything else fine) and differ in device kind and ordinal,
shape, strides, element type, contents, device function and state.  Both throw the
same violation, about `faces`. -/
theorem load_textures_depends_only_on_flags_witness :
    (image_ok.device.is_cuda = image_other.device.is_cuda ∧
      image_ok.is_contiguous = image_other.is_contiguous ∧
      faces_on_cpu.device.is_cuda = faces_other.device.is_cuda ∧
      faces_on_cpu.is_contiguous = faces_other.is_contiguous ∧
      textures_transposed.device.is_cuda = textures_other.device.is_cuda ∧
      textures_transposed.is_contiguous = textures_other.is_contiguous ∧
      is_update_ok.device.is_cuda = is_update_other.device.is_cuda ∧
      is_update_ok.is_contiguous = is_update_other.is_contiguous) ∧
    ((∃ v : PreconditionViolation,
      load_textures sample_kernel image_ok faces_on_cpu textures_transposed is_update_ok
          initial_state =
        (Result.error v.message, initial_state) ∧
      load_textures failing_kernel image_other faces_other textures_other is_update_other
          later_state =
        (Result.error v.message, later_state)) ∨
    (load_textures sample_kernel image_ok faces_on_cpu textures_transposed is_update_ok
          initial_state =
        load_textures_cuda sample_kernel image_ok faces_on_cpu textures_transposed
          is_update_ok initial_state ∧
      load_textures failing_kernel image_other faces_other textures_other is_update_other
          later_state =
        load_textures_cuda failing_kernel image_other faces_other textures_other
          is_update_other later_state)) ∧
    (image_ok.sizes ≠ image_other.sizes ∧ image_ok.dtype ≠ image_other.dtype ∧
      image_ok.values ≠ image_other.values ∧ faces_on_cpu.device ≠ faces_other.device) ∧
    (load_textures sample_kernel image_ok faces_on_cpu textures_transposed is_update_ok
        initial_state).1 = Result.error "faces must be a CUDA tensor" ∧
    (load_textures failing_kernel image_other faces_other textures_other is_update_other
        later_state).1 = Result.error "faces must be a CUDA tensor" :=
  ⟨⟨by decide, by decide, by decide, by decide, by decide, by decide, by decide, by decide⟩,
   load_textures_depends_only_on_flags sample_kernel failing_kernel image_ok faces_on_cpu
     textures_transposed is_update_ok image_other faces_other textures_other
     is_update_other initial_state later_state (by decide) (by decide) (by decide)
     (by decide) (by decide) (by decide) (by decide) (by decide),
   ⟨by decide, by decide, by decide, by decide⟩, by decide, by decide⟩

/-- C7: the eight checks run in the sequence image-device, image-contiguous,
faces-device, faces-contiguous, is_update-device, is_update-contiguous,
textures-device, textures-contiguous, and the violation thrown is the first failing
check of that sequence: `load_textures` throws the message of `first_failing_check`,
which fails while every check listed before it in `check_sequence` passes, and calls the
device function when no check fails.  Hence a handle that is not GPU-resident, reached
with all earlier arguments valid, reports the device-residency condition whether or not
it is contiguous; no handle that is not GPU-resident is ever reported for contiguity;
and a GPU-resident, non-contiguous image together with a faces handle not on a GPU
reports the contiguity of image. -/
theorem load_textures_first_failing_check {σ : Type} (kernel : Kernel σ)
    (image faces textures is_update : Tensor) (s : State σ) :
    (load_textures kernel image faces textures is_update s =
      match first_failing_check image faces textures is_update with
      | some v => (Result.error v.message, s)
      | none => load_textures_cuda kernel image faces textures is_update s) ∧
    (∀ v : PreconditionViolation,
      first_failing_check image faces textures is_update = some v →
      v.condition.holds (v.argument.select image faces textures is_update) = false ∧
      ∃ before after : List PreconditionViolation,
        check_sequence = before ++ v :: after ∧
        ∀ w ∈ before,
          w.condition.holds (w.argument.select image faces textures is_update) = true) ∧
    (∀ a : Arg,
      (a.select image faces textures is_update).device.is_cuda = false →
      (∀ b : Arg, b.position < a.position →
        (b.select image faces textures is_update).valid = true) →
      load_textures kernel image faces textures is_update s =
        (Result.error (PreconditionViolation.mk a Condition.device_residency).message, s)) ∧
    (∀ a : Arg,
      (a.select image faces textures is_update).device.is_cuda = false →
      (load_textures kernel image faces textures is_update s).1 ≠
        Result.error (PreconditionViolation.mk a Condition.contiguity).message) ∧
    (image.device.is_cuda = true → image.is_contiguous = false →
      faces.device.is_cuda = false →
      load_textures kernel image faces textures is_update s =
        (Result.error "image must be contiguous", s)) := by
  refine ⟨load_textures_by_first_failing_check kernel image faces textures is_update s,
    ?_, ?_, ?_, ?_⟩
  · intro v hv
    have h := List.find?_eq_some.1 hv
    refine ⟨by simpa using h.1, ?_⟩
    obtain ⟨before, after, hseq, hbefore⟩ := h.2
    exact ⟨before, after, hseq, fun w hw => by simpa using hbefore w hw⟩
  · intro a ha hearlier
    rw [load_textures_run]
    cases a
    · simp only [Arg.select] at ha
      simp [ha]; rfl
    · have h1 := select_flags_of_valid image faces textures is_update Arg.image
        (hearlier Arg.image (by decide))
      simp only [Arg.select] at ha h1
      simp [ha, h1.1, h1.2]; rfl
    · have h1 := select_flags_of_valid image faces textures is_update Arg.image
        (hearlier Arg.image (by decide))
      have h2 := select_flags_of_valid image faces textures is_update Arg.faces
        (hearlier Arg.faces (by decide))
      have h3 := select_flags_of_valid image faces textures is_update Arg.is_update
        (hearlier Arg.is_update (by decide))
      simp only [Arg.select] at ha h1 h2 h3
      simp [ha, h1.1, h1.2, h2.1, h2.2, h3.1, h3.2]; rfl
    · have h1 := select_flags_of_valid image faces textures is_update Arg.image
        (hearlier Arg.image (by decide))
      have h2 := select_flags_of_valid image faces textures is_update Arg.faces
        (hearlier Arg.faces (by decide))
      simp only [Arg.select] at ha h1 h2
      simp [ha, h1.1, h1.2, h2.1, h2.2]; rfl
  · intro a ha heq
    cases hff : first_failing_check image faces textures is_update with
    | none =>
      have hv := (first_failing_check_eq_none_iff image faces textures is_update).1 hff
      have hflags : (a.select image faces textures is_update).valid = true := by
        cases a
        · exact hv.1
        · exact hv.2.1
        · exact hv.2.2.1
        · exact hv.2.2.2
      rw [(select_flags_of_valid image faces textures is_update a hflags).1] at ha
      exact Bool.noConfusion ha
    | some v =>
      rw [load_textures_by_first_failing_check, hff] at heq
      have hvw := message_injective _ _ (Result.error.inj heq)
      have hfail := first_failing_check_fails image faces textures is_update v hff
      rw [hvw] at hfail
      have hcontig : (a.select image faces textures is_update).is_contiguous = false := hfail
      have hff2 := hff
      rw [hvw, first_failing_check_cases] at hff2
      cases a <;> simp only [Arg.select] at ha hcontig <;>
        simp [ha, hcontig] at hff2 <;> split_ifs at hff2 <;> simp at hff2
  · intro hgpu hlayout _
    rw [load_textures_run]
    simp [hgpu, hlayout]

/-- Scenario for C7: a flag handle that is neither on a GPU nor contiguous is reported
for device residency; a transposed image on the GPU together with faces on the host is
reported for the contiguity of image. -/
theorem load_textures_first_failing_check_witness :
    load_textures sample_kernel image_ok faces_ok textures_ok is_update_on_cpu_strided
        initial_state =
      (Result.error "is_update must be a CUDA tensor", initial_state) ∧
    load_textures sample_kernel image_transposed faces_on_cpu textures_ok is_update_ok
        initial_state =
      (Result.error "image must be contiguous", initial_state) :=
  ⟨(load_textures_first_failing_check sample_kernel image_ok faces_ok textures_ok
      is_update_on_cpu_strided initial_state).2.2.1 Arg.is_update (by decide)
      (by intro b hb; cases b <;> first | decide | exact absurd hb (by decide)),
   (load_textures_first_failing_check sample_kernel image_transposed faces_on_cpu
      textures_ok is_update_ok initial_state).2.2.2.2 (by decide) (by decide) (by decide)⟩

/-! ## The messages -/

/-- C8: the message of a violation identifies argument and condition exactly.  The
check that fails is thrown with the text `n must be a CUDA tensor` (device residency)
or `n must be contiguous` (contiguity), where `n` is the name of the argument; the eight
texts are pairwise distinct; so the message thrown determines the check that failed. -/
theorem load_textures_message_identifies_check :
    (∀ {σ : Type} (kernel : Kernel σ) (image faces textures is_update : Tensor)
        (s : State σ) (v : PreconditionViolation),
      first_failing_check image faces textures is_update = some v →
      (load_textures kernel image faces textures is_update s).1 =
        Result.error v.message) ∧
    ((PreconditionViolation.mk Arg.image Condition.device_residency).message =
        "image must be a CUDA tensor" ∧
      (PreconditionViolation.mk Arg.image Condition.contiguity).message =
        "image must be contiguous" ∧
      (PreconditionViolation.mk Arg.faces Condition.device_residency).message =
        "faces must be a CUDA tensor" ∧
      (PreconditionViolation.mk Arg.faces Condition.contiguity).message =
        "faces must be contiguous" ∧
      (PreconditionViolation.mk Arg.is_update Condition.device_residency).message =
        "is_update must be a CUDA tensor" ∧
      (PreconditionViolation.mk Arg.is_update Condition.contiguity).message =
        "is_update must be contiguous" ∧
      (PreconditionViolation.mk Arg.textures Condition.device_residency).message =
        "textures must be a CUDA tensor" ∧
      (PreconditionViolation.mk Arg.textures Condition.contiguity).message =
        "textures must be contiguous") ∧
    (∀ v w : PreconditionViolation, v.message = w.message → v = w) ∧
    (∀ {σ : Type} (kernel : Kernel σ) (image faces textures is_update : Tensor)
        (s : State σ) (v w : PreconditionViolation),
      first_failing_check image faces textures is_update = some w →
      (load_textures kernel image faces textures is_update s).1 =
        Result.error v.message →
      v = w) := by
  refine ⟨?_, ⟨rfl, rfl, rfl, rfl, rfl, rfl, rfl, rfl⟩, message_injective, ?_⟩
  · intro σ kernel image faces textures is_update s v hv
    rw [load_textures_by_first_failing_check, hv]
  · intro σ kernel image faces textures is_update s v w hw heq
    rw [load_textures_by_first_failing_check, hw] at heq
    exact (message_injective _ _ (Result.error.inj heq)).symm

/-- Scenario for C8: the texts thrown for a textures handle on another backend and for
a transposed textures handle; the second text is the message of the contiguity check of
textures and of no other check. -/
theorem load_textures_message_identifies_check_witness :
    (load_textures sample_kernel image_ok faces_ok faces_other is_update_ok
        initial_state).1 = Result.error "textures must be a CUDA tensor" ∧
    (load_textures sample_kernel image_ok faces_ok textures_transposed is_update_ok
        initial_state).1 = Result.error "textures must be contiguous" ∧
    (∀ v : PreconditionViolation,
      (load_textures sample_kernel image_ok faces_ok textures_transposed is_update_ok
        initial_state).1 = Result.error v.message →
      v = PreconditionViolation.mk Arg.textures Condition.contiguity) :=
  ⟨by decide, by decide,
   fun v hv =>
     load_textures_message_identifies_check.2.2.2 sample_kernel image_ok faces_ok
       textures_transposed is_update_ok initial_state v _ (by decide) hv⟩

end LoadTextures
